import Mathlib

/-!
Shallow embedding of the cycle-aware scheduling engine of the `synctrack`
repository, together with proofs about it.

Sources embedded:
- `src/backend/models/hormonal_cycle.py` (phase tables, phase resolution,
  scoring, date ranking),
- `src/backend/services/calendar_service.py` (slot search, calendar-event
  creation, scheduling orchestrator),
- `src/simple_backend.py` (the simplified phase resolver).

Modelling conventions:
- A Python `datetime` is modelled as an integer number of minutes since a
  fixed epoch (`ℤ`); sub-minute precision is never consulted by the engine.
  `datetime.date()` is whole-day floor division by 1440.  The epoch day 0 is
  a Monday, so `date.weekday()` is `day % 7` (Monday = 0 .. Sunday = 6).
- Python `float` scores are modelled as exact rationals (`ℚ`); every constant
  in the scoring code is a decimal literal, so the formula structure is
  preserved exactly.
- Python `%` on integers with positive modulus agrees with `Int.emod`
  (Lean's `%` on `ℤ`), and Python `//` on non-negative operands agrees with
  `Int.ediv` (Lean's `/` on `ℤ`).
- `list.sort(key=..., reverse=True)` is Python's Timsort: a stable sort.  A
  stable descending sort has a unique result, realised below by a stable
  insertion sort `sortByScoreDesc`.
- Calls to the external Google Calendar collaborator are modelled
  explicitly: the busy-interval query becomes a function argument
  `getAvail`, the boolean `service` models whether `self.service` is
  initialised, and event insertion threads an explicit list of created
  events (the observable side effect).
-/

set_option maxRecDepth 40000

namespace SyncTrack

/-- CyclePhase enumeration from `hormonal_cycle.py` lines 7-11. -/
inductive CyclePhase where
  | menstrual
  | follicular
  | ovulatory
  | luteal
deriving DecidableEq, Repr

/-- String value of a `CyclePhase`, as in the Python `Enum` (`phase.value`). -/
def CyclePhase.value : CyclePhase → String
  | .menstrual => "menstrual"
  | .follicular => "follicular"
  | .ovulatory => "ovulatory"
  | .luteal => "luteal"

/-- TaskType enumeration from `hormonal_cycle.py` lines 14-24. -/
inductive TaskType where
  | creative
  | analytical
  | physical
  | social
  | administrative
  | strategic
  | detail_oriented
  | communication
  | learning
  | reflection
deriving DecidableEq, Repr

/-- String value of a `TaskType`, as in the Python `Enum` (`task_type.value`). -/
def TaskType.value : TaskType → String
  | .creative => "creative"
  | .analytical => "analytical"
  | .physical => "physical"
  | .social => "social"
  | .administrative => "administrative"
  | .strategic => "strategic"
  | .detail_oriented => "detail_oriented"
  | .communication => "communication"
  | .learning => "learning"
  | .reflection => "reflection"

/-- TaskOptimization model, `hormonal_cycle.py` lines 27-32. -/
structure TaskOptimization where
  task_type : TaskType
  optimal_phases : List CyclePhase
  energy_level : ℤ
  focus_level : ℤ
  description : String
deriving DecidableEq, Repr

/-- HormonalProfile model, `hormonal_cycle.py` lines 35-45. -/
structure HormonalProfile where
  phase : CyclePhase
  day_range : ℤ × ℤ
  energy_level : ℤ
  focus_level : ℤ
  creativity_level : ℤ
  social_energy : ℤ
  analytical_thinking : ℤ
  physical_energy : ℤ
  characteristics : List String
deriving DecidableEq, Repr

/-- CycleData model, `hormonal_cycle.py` lines 48-54.  The pydantic bounds
(21 ≤ cycle_length ≤ 35, 3 ≤ period_length ≤ 8) appear as hypotheses of the
theorems that need them.  `created_at`/`updated_at` are never read by the
engine and are omitted. -/
structure CycleData where
  user_id : String
  last_period_start : ℤ
  cycle_length : ℤ
  period_length : ℤ
deriving DecidableEq, Repr

/-- Task model, `hormonal_cycle.py` lines 57-67 (`created_at` omitted:
never read by the engine). -/
structure Task where
  id : Option String := none
  title : String
  description : Option String := none
  task_type : TaskType
  estimated_duration : ℤ
  priority : ℤ
  deadline : Option ℤ := none
  scheduled_at : Option ℤ := none
  completed : Bool := false
deriving DecidableEq, Repr

/-- Busy interval as produced by `get_calendar_availability`
(`calendar_service.py` lines 144-157): a start/end pair of datetimes. -/
structure BusyInterval where
  start : ℤ
  «end» : ℤ
deriving DecidableEq, Repr

/-- Candidate slot dict appended by `find_available_slots`
(`calendar_service.py` lines 193-197). -/
structure Slot where
  start : ℤ
  «end» : ℤ
  duration : ℤ
deriving DecidableEq, Repr

/-- Python `datetime.date()` on the minutes-since-epoch model: the whole-day
index, floor division by 1440 (Lean's `/` on `ℤ` is Euclidean division,
which is floor division for the positive divisor 1440). -/
def dtDate (t : ℤ) : ℤ := t / 1440

/-- Python `datetime.combine(day, time(hour=h))`, and equally
`dt.replace(hour=h, minute=0, second=0, microsecond=0)` when `day = dt.date()`:
minutes-since-epoch of hour `h` on day `day`. -/
def combineHour (day h : ℤ) : ℤ := day * 1440 + h * 60

/-- The MENSTRUAL profile of `HormonalCycleManager.PHASE_PROFILES`,
`hormonal_cycle.py` lines 75-91. -/
def menstrualProfile : HormonalProfile where
  phase := .menstrual
  day_range := (1, 5)
  energy_level := 3
  focus_level := 6
  creativity_level := 4
  social_energy := 2
  analytical_thinking := 7
  physical_energy := 2
  characteristics := [
    "Introspective and reflective",
    "Good for planning and organizing",
    "Lower energy but high focus",
    "Excellent for detail-oriented work",
    "Good time for analysis and evaluation"]

/-- The FOLLICULAR profile, `hormonal_cycle.py` lines 92-108. -/
def follicularProfile : HormonalProfile where
  phase := .follicular
  day_range := (6, 13)
  energy_level := 7
  focus_level := 8
  creativity_level := 9
  social_energy := 6
  analytical_thinking := 8
  physical_energy := 7
  characteristics := [
    "Rising energy and optimism",
    "Peak creativity and innovation",
    "Great for new projects",
    "High learning capacity",
    "Good for problem-solving"]

/-- The OVULATORY profile, `hormonal_cycle.py` lines 109-125. -/
def ovulatoryProfile : HormonalProfile where
  phase := .ovulatory
  day_range := (14, 16)
  energy_level := 9
  focus_level := 7
  creativity_level := 8
  social_energy := 10
  analytical_thinking := 6
  physical_energy := 9
  characteristics := [
    "Peak energy and confidence",
    "Excellent for communication",
    "Great for presentations and meetings",
    "High social energy",
    "Perfect for networking and collaboration"]

/-- The LUTEAL profile, `hormonal_cycle.py` lines 126-142. -/
def lutealProfile : HormonalProfile where
  phase := .luteal
  day_range := (17, 28)
  energy_level := 5
  focus_level := 9
  creativity_level := 5
  social_energy := 4
  analytical_thinking := 9
  physical_energy := 4
  characteristics := [
    "High attention to detail",
    "Excellent for administrative tasks",
    "Good for editing and reviewing",
    "Strong analytical thinking",
    "Perfect for completing projects"]

/-- PHASE_PROFILES as an insertion-ordered association list, the order in
which Python iterates `self.PHASE_PROFILES.items()` (`hormonal_cycle.py`
lines 74-143). -/
def PHASE_PROFILES : List (CyclePhase × HormonalProfile) :=
  [(.menstrual, menstrualProfile),
   (.follicular, follicularProfile),
   (.ovulatory, ovulatoryProfile),
   (.luteal, lutealProfile)]

/-- Keyed dict access `self.PHASE_PROFILES[phase]` (always present: the dict
has exactly one entry per phase). -/
def PHASE_PROFILES_at : CyclePhase → HormonalProfile
  | .menstrual => menstrualProfile
  | .follicular => follicularProfile
  | .ovulatory => ovulatoryProfile
  | .luteal => lutealProfile

/-- TASK_OPTIMIZATIONS list, `hormonal_cycle.py` lines 146-217. -/
def TASK_OPTIMIZATIONS : List TaskOptimization :=
  [{ task_type := .creative, optimal_phases := [.follicular, .ovulatory],
     energy_level := 8, focus_level := 7,
     description := "Creative work, brainstorming, design, writing" },
   { task_type := .analytical, optimal_phases := [.menstrual, .luteal],
     energy_level := 6, focus_level := 9,
     description := "Data analysis, research, problem-solving" },
   { task_type := .physical, optimal_phases := [.follicular, .ovulatory],
     energy_level := 8, focus_level := 6,
     description := "Exercise, physical activities, active tasks" },
   { task_type := .social, optimal_phases := [.ovulatory],
     energy_level := 9, focus_level := 7,
     description := "Meetings, presentations, networking, collaboration" },
   { task_type := .administrative, optimal_phases := [.luteal, .menstrual],
     energy_level := 5, focus_level := 9,
     description := "Admin tasks, organizing, filing, data entry" },
   { task_type := .strategic, optimal_phases := [.menstrual, .follicular],
     energy_level := 6, focus_level := 8,
     description := "Planning, strategy, goal setting" },
   { task_type := .detail_oriented, optimal_phases := [.luteal, .menstrual],
     energy_level := 5, focus_level := 10,
     description := "Editing, proofreading, quality control" },
   { task_type := .communication, optimal_phases := [.ovulatory, .follicular],
     energy_level := 8, focus_level := 7,
     description := "Calls, emails, presentations, negotiations" },
   { task_type := .learning, optimal_phases := [.follicular],
     energy_level := 7, focus_level := 8,
     description := "Learning new skills, training, studying" },
   { task_type := .reflection, optimal_phases := [.menstrual],
     energy_level := 3, focus_level := 8,
     description := "Reflection, journaling, evaluation, planning" }]

/-- Loop `for phase, profile in self.PHASE_PROFILES.items(): if lo <=
cycle_day <= hi: return phase`, with the `return CyclePhase.LUTEAL` fallback
(`hormonal_cycle.py` lines 228-233 and again 250-254). -/
def phaseForCycleDay (cycle_day : ℤ) : CyclePhase :=
  match PHASE_PROFILES.find? (fun pp =>
      decide (pp.2.day_range.1 ≤ cycle_day ∧ cycle_day ≤ pp.2.day_range.2)) with
  | some pp => pp.1
  | none => CyclePhase.luteal

/-- HormonalCycleManager.get_current_phase, `hormonal_cycle.py` lines
219-233.  The hidden `datetime.now()` read is the explicit `now` argument. -/
def get_current_phase (cycle_data : CycleData) (now : ℤ) : CyclePhase :=
  let today := dtDate now
  let last_period := dtDate cycle_data.last_period_start
  let days_since_period := today - last_period
  let cycle_day := days_since_period % cycle_data.cycle_length + 1
  phaseForCycleDay cycle_day

/-- Cycle-day computation of HormonalCycleManager.get_phase_for_date,
`hormonal_cycle.py` lines 237-248, including the explicit negative-delta
branch (Python reassigns `days_since_period`; here the reassigned value is
`days2`).  `abs(d) // L` is `|d| / L`: both operands are non-negative, where
Python floor division agrees with Lean's `/` on `ℤ`. -/
def get_cycle_day_for_date (cycle_data : CycleData) (target_date : ℤ) : ℤ :=
  let last_period := dtDate cycle_data.last_period_start
  let target := dtDate target_date
  let days_since_period := target - last_period
  let days2 :=
    if days_since_period < 0 then
      let cycles_back := |days_since_period| / cycle_data.cycle_length + 1
      let adjusted_start := last_period - cycles_back * cycle_data.cycle_length
      target - adjusted_start
    else days_since_period
  days2 % cycle_data.cycle_length + 1

/-- HormonalCycleManager.get_phase_for_date, `hormonal_cycle.py` lines
235-254. -/
def get_phase_for_date (cycle_data : CycleData) (target_date : ℤ) : CyclePhase :=
  phaseForCycleDay (get_cycle_day_for_date cycle_data target_date)

/-- Python's builtin `min` on two floats, modelled executably on ℚ:
`min(a, b)` is `b` when `b < a` and `a` otherwise (on ties Python returns
the first argument; the value agrees with Mathlib's `min` either way, see
`pyMin_eq_min`). -/
def pyMin (a b : ℚ) : ℚ := if b < a then b else a

/-- HormonalCycleManager.get_optimal_scheduling_score, `hormonal_cycle.py`
lines 256-292.  Scores are exact rationals. -/
def get_optimal_scheduling_score (task : Task) (target_date : ℤ)
    (cycle_data : CycleData) : ℚ :=
  let phase := get_phase_for_date cycle_data target_date
  let phase_profile := PHASE_PROFILES_at phase
  let task_opt := TASK_OPTIMIZATIONS.find? (fun opt =>
    decide (opt.task_type = task.task_type))
  match task_opt with
  | none => 0.5
  | some task_opt =>
    let base_score : ℚ := if phase ∈ task_opt.optimal_phases then 0.8 else 0.3
    let energy_match : ℚ := (phase_profile.energy_level : ℚ) / 10
    let focus_match : ℚ := (phase_profile.focus_level : ℚ) / 10
    let phase_weight : ℚ := 0.5
    let energy_weight : ℚ := 0.3
    let focus_weight : ℚ := 0.2
    let final_score :=
      base_score * phase_weight + energy_match * energy_weight +
        focus_match * focus_weight
    let priority_boost := ((task.priority : ℚ) - 1) * 0.1
    pyMin 1 (final_score + priority_boost)

/-- Stable insertion step of the descending-by-score sort: the inserted
element goes before the first element whose score is ≤ its own, i.e. after
every strictly greater score and before every equal one — exactly where a
stable descending sort puts an element that originally preceded the rest. -/
def insertByScoreDesc (x : ℤ × ℚ) : List (ℤ × ℚ) → List (ℤ × ℚ)
  | [] => [x]
  | y :: ys => if y.2 ≤ x.2 then x :: y :: ys else y :: insertByScoreDesc x ys

/-- Python's `optimal_dates.sort(key=lambda x: x[1], reverse=True)`
(`hormonal_cycle.py` line 305): Timsort is stable, and a stable descending
sort has a unique result, realised here by stable insertion sort. -/
def sortByScoreDesc : List (ℤ × ℚ) → List (ℤ × ℚ)
  | [] => []
  | x :: l => insertByScoreDesc x (sortByScoreDesc l)

/-- HormonalCycleManager.get_next_optimal_dates, `hormonal_cycle.py` lines
294-307.  The hidden `today = datetime.now()` read is the explicit `now`
argument; `today + timedelta(days=i)` keeps the time of day. -/
def get_next_optimal_dates (task : Task) (cycle_data : CycleData)
    (days_ahead : ℕ) (now : ℤ) : List (ℤ × ℚ) :=
  let optimal_dates := (List.range days_ahead).map (fun (i : ℕ) =>
    let target_date := now + (i : ℤ) * 1440
    (target_date, get_optimal_scheduling_score task target_date cycle_data))
  (sortByScoreDesc optimal_dates).take 10

/-- Calendar event payload built by CalendarService.create_calendar_event,
`calendar_service.py` lines 67-103.  `reminders` holds the override list
(method, minutes); an empty list means the field is absent. -/
structure CalEvent where
  summary : String
  description : String
  start : ℤ
  «end» : ℤ
  colorId : String
  taskType : String
  priority : ℤ
  reminders : List (String × ℤ)
deriving DecidableEq, Repr

/-- CalendarService._get_color_for_task_type, `calendar_service.py` lines
112-126.  The `.get(..., '1')` default is unreachable for the closed
`TaskType` enumeration, whose ten values are all keys of the mapping. -/
def get_color_for_task_type : TaskType → String
  | .creative => "5"
  | .analytical => "9"
  | .physical => "11"
  | .social => "10"
  | .administrative => "8"
  | .strategic => "3"
  | .detail_oriented => "6"
  | .communication => "2"
  | .learning => "4"
  | .reflection => "1"

/-- Event dict assembled by create_calendar_event (lines 64-103) for a task
scheduled at `scheduled_time` for `duration` minutes. -/
def buildCalendarEvent (task : Task) (scheduled_time duration : ℤ) : CalEvent where
  summary := task.title
  description :=
    match task.description with
    | some s =>
      if s = "" then "Optimally scheduled task during your hormonal cycle" else s
    | none => "Optimally scheduled task during your hormonal cycle"
  start := scheduled_time
  «end» := scheduled_time + duration
  colorId := get_color_for_task_type task.task_type
  taskType := task.task_type.value
  priority := task.priority
  reminders :=
    if 4 ≤ task.priority then [("email", 24 * 60), ("popup", 30)]
    else if 2 ≤ task.priority then [("popup", 15)]
    else []

/-- CalendarService.create_calendar_event, `calendar_service.py` lines
58-110.  `service : Bool` models whether `self.service` is initialised;
`events` is the state of the external calendar, to which the Google
`events().insert` call appends.  The server-assigned event id is modelled by
the constant `"gcal-event-id"`.  `duration_minutes or task.estimated_duration`
is Python truthiness: `None` and `0` both fall back to the task's duration. -/
def create_calendar_event (service : Bool) (events : List CalEvent)
    (task : Task) (scheduled_time : ℤ) (duration_minutes : Option ℤ) :
    Option String × List CalEvent :=
  if !service then (none, events)
  else
    let duration :=
      match duration_minutes with
      | some d => if d = 0 then task.estimated_duration else d
      | none => task.estimated_duration
    (some "gcal-event-id",
      events ++ [buildCalendarEvent task scheduled_time duration])

/-- Inclusive day range walked by the `while current_date <= end_date_only`
loop of find_available_slots. -/
def dayRange (d0 d1 : ℤ) : List ℤ :=
  (List.range (d1 + 1 - d0).toNat).map (fun (i : ℕ) => d0 + (i : ℤ))

/-- CalendarService.find_available_slots, `calendar_service.py` lines
165-201.  `getAvail` models `self.get_calendar_availability(start_date,
end_date)`, the read-only external busy-interval source, fetched once for
the whole range.  Weekend days (`weekday() >= 5`; epoch day 0 is a Monday,
so `weekday = day % 7`) are skipped; each whole hour in
`[working_hours.1, working_hours.2)` yields a candidate slot, kept when it
overlaps no busy interval under the open-interval test
`slot_start < busy.end and slot_end > busy.start`. -/
def find_available_slots (getAvail : ℤ → ℤ → List BusyInterval)
    (start_date end_date : ℤ) (duration_minutes : ℤ)
    (working_hours : ℤ × ℤ) : List Slot :=
  let busy_times := getAvail start_date end_date
  let current_date := dtDate start_date
  let end_date_only := dtDate end_date
  ((dayRange current_date end_date_only).map (fun d =>
    if 5 ≤ d % 7 then []
    else (List.range (working_hours.2 - working_hours.1).toNat).filterMap
      (fun (i : ℕ) =>
        let slot_start := combineHour d (working_hours.1 + (i : ℤ))
        let slot_end := slot_start + duration_minutes
        if ∀ b ∈ busy_times, ¬(slot_start < b.«end» ∧ slot_end > b.start)
        then some ⟨slot_start, slot_end, duration_minutes⟩
        else none))).flatten

/-- Result dict returned by CalendarService.schedule_task_optimally,
`calendar_service.py` lines 231-238. -/
structure ScheduleResult where
  scheduled_time : ℤ
  end_time : ℤ
  cycle_score : ℚ
  hormonal_phase : String
  calendar_event_id : Option String
  reasoning : String
deriving DecidableEq, Repr

/-- The `for optimal_date, cycle_score in optimal_dates` loop of
schedule_task_optimally, `calendar_service.py` lines 211-240: on the first
date with a non-empty slot list, take the first slot, create the calendar
event, and return the result dict; exhausting the list returns `None`. -/
def scheduleLoop (task : Task) (cycle_data : CycleData)
    (working_hours : ℤ × ℤ) (getAvail : ℤ → ℤ → List BusyInterval)
    (service : Bool) (events : List CalEvent) :
    List (ℤ × ℚ) → Option ScheduleResult × List CalEvent
  | [] => (none, events)
  | (optimal_date, cycle_score) :: rest =>
    let start_of_day := combineHour (dtDate optimal_date) working_hours.1
    let end_of_day := combineHour (dtDate optimal_date) working_hours.2
    let available_slots :=
      find_available_slots getAvail start_of_day end_of_day
        task.estimated_duration working_hours
    match available_slots with
    | [] => scheduleLoop task cycle_data working_hours getAvail service events rest
    | best_slot :: _ =>
      let created := create_calendar_event service events task best_slot.start
        (some task.estimated_duration)
      let phase := get_phase_for_date cycle_data optimal_date
      (some { scheduled_time := best_slot.start
              end_time := best_slot.«end»
              cycle_score := cycle_score
              hormonal_phase := phase.value
              calendar_event_id := created.1
              reasoning := "Scheduled during " ++ phase.value ++
                " phase for optimal " ++ task.task_type.value ++ " performance" },
        created.2)

/-- CalendarService.schedule_task_optimally, `calendar_service.py` lines
203-240 (Python defaults: `days_ahead=14`, `working_hours=(9, 17)`).  The
hidden `datetime.now()` read inside `get_next_optimal_dates` is the explicit
`now` argument; `service`/`events`/`getAvail` model the external Google
Calendar exactly as in `create_calendar_event` and `find_available_slots`. -/
def schedule_task_optimally (task : Task) (cycle_data : CycleData)
    (days_ahead : ℕ) (working_hours : ℤ × ℤ)
    (getAvail : ℤ → ℤ → List BusyInterval) (service : Bool)
    (events : List CalEvent) (now : ℤ) : Option ScheduleResult × List CalEvent :=
  scheduleLoop task cycle_data working_hours getAvail service events
    (get_next_optimal_dates task cycle_data days_ahead now)

/-- Phase profile dict of `simple_backend.py` lines 68-109 (day ranges and
energy/focus levels; the characteristics lists are the three-element
prefixes used there). -/
structure SBProfile where
  day_range : ℤ × ℤ
  energy_level : ℤ
  focus_level : ℤ
  characteristics : List String
deriving DecidableEq, Repr

/-- PHASE_PROFILES of `simple_backend.py`, as the insertion-ordered
association list over string phase names. -/
def SB_PHASE_PROFILES : List (String × SBProfile) :=
  [("menstrual",
    { day_range := (1, 5), energy_level := 3, focus_level := 6,
      characteristics := [
        "Introspective and reflective",
        "Good for planning and organizing",
        "Lower energy but high focus"] }),
   ("follicular",
    { day_range := (6, 13), energy_level := 7, focus_level := 8,
      characteristics := [
        "Rising energy and optimism",
        "Peak creativity and innovation",
        "Great for new projects"] }),
   ("ovulatory",
    { day_range := (14, 16), energy_level := 9, focus_level := 7,
      characteristics := [
        "Peak energy and confidence",
        "Excellent for communication",
        "Great for presentations and meetings"] }),
   ("luteal",
    { day_range := (17, 28), energy_level := 5, focus_level := 9,
      characteristics := [
        "High attention to detail",
        "Excellent for administrative tasks",
        "Good for editing and reviewing"] })]

/-- get_current_phase of `simple_backend.py` lines 111-122 (its CycleData
has the same fields consulted here: `last_period_start`, `cycle_length`).
The hidden `datetime.now()` read is the explicit `now` argument. -/
def sb_get_current_phase (cycle_data : CycleData) (now : ℤ) : String :=
  let today := dtDate now
  let last_period := dtDate cycle_data.last_period_start
  let days_since_period := today - last_period
  let cycle_day := days_since_period % cycle_data.cycle_length + 1
  match SB_PHASE_PROFILES.find? (fun pp =>
      decide (pp.2.day_range.1 ≤ cycle_day ∧ cycle_day ≤ pp.2.day_range.2)) with
  | some pp => pp.1
  | none => "luteal"

/-- Environment of a call into the engine: the ambient wall clock that
Python's `datetime.now()` would read.  The engine functions that never call
`datetime.now()` ignore it; `get_next_optimal_dates` reads it. -/
structure CallEnv where
  now : ℤ
deriving DecidableEq, Repr

/-- Invocation of get_optimal_scheduling_score in an environment: the source
(lines 256-292) performs no clock read, so the environment is unused. -/
def score_called (env : CallEnv) (task : Task) (target_date : ℤ)
    (cycle_data : CycleData) : ℚ :=
  get_optimal_scheduling_score task target_date cycle_data

/-- Invocation of find_available_slots in an environment: the source (lines
165-201) performs no clock read, so the environment is unused. -/
def slots_called (env : CallEnv) (getAvail : ℤ → ℤ → List BusyInterval)
    (start_date end_date duration : ℤ) (working_hours : ℤ × ℤ) : List Slot :=
  find_available_slots getAvail start_date end_date duration working_hours

/-- Invocation of get_next_optimal_dates in an environment: the source reads
`datetime.now()` at line 297, i.e. the ambient clock of the environment. -/
def rank_called (env : CallEnv) (task : Task) (cycle_data : CycleData)
    (days_ahead : ℕ) : List (ℤ × ℚ) :=
  get_next_optimal_dates task cycle_data days_ahead env.now

/-- The executable model of Python's `min` agrees with Mathlib's `min`. -/
theorem pyMin_eq_min (a b : ℚ) : pyMin a b = min a b := by
  rw [pyMin, min_def]
  split_ifs <;> first | rfl | linarith

/-- Key arithmetic fact about `get_phase_for_date`'s cycle-day computation:
the explicit negative-delta adjustment (lines 242-246) computes the same
value as the direct floor-modulus formula used when the delta is
non-negative, because shifting the anchor back by whole cycles does not
change the residue. -/
theorem get_cycle_day_eq_emod (cycle_data : CycleData) (t : ℤ) :
    get_cycle_day_for_date cycle_data t =
      (dtDate t - dtDate cycle_data.last_period_start) % cycle_data.cycle_length
        + 1 := by
  simp only [get_cycle_day_for_date]
  split_ifs with h
  · have e : dtDate t - (dtDate cycle_data.last_period_start -
        (|dtDate t - dtDate cycle_data.last_period_start| /
          cycle_data.cycle_length + 1) * cycle_data.cycle_length)
        = (dtDate t - dtDate cycle_data.last_period_start) +
          (|dtDate t - dtDate cycle_data.last_period_start| /
            cycle_data.cycle_length + 1) * cycle_data.cycle_length := by ring
    rw [e, Int.add_mul_emod_self]
  · rfl

/-- Hour slots of a day stay on that day: combining a day with a valid hour
of day (0..23) and taking the date again returns the day. -/
theorem dtDate_combineHour (d h : ℤ) (h0 : 0 ≤ h) (h1 : h ≤ 23) :
    dtDate (combineHour d h) = d := by
  simp only [dtDate, combineHour]
  omega

/-- Shifting a datetime by whole days shifts its date by the same count. -/
theorem dtDate_add_days (t k : ℤ) : dtDate (t + k * 1440) = dtDate t + k := by
  simp only [dtDate]
  omega

/-- The phase lookup of `simple_backend.get_current_phase` agrees, as a
string, with the phase lookup of `HormonalCycleManager`: the two tables have
identical day ranges in identical order. -/
theorem sb_lookup_agrees (cycle_day : ℤ) :
    (match SB_PHASE_PROFILES.find? (fun pp =>
        decide (pp.2.day_range.1 ≤ cycle_day ∧ cycle_day ≤ pp.2.day_range.2)) with
     | some pp => pp.1
     | none => "luteal") = (phaseForCycleDay cycle_day).value := by
  by_cases h1 : 1 ≤ cycle_day ∧ cycle_day ≤ 5 <;>
    by_cases h2 : 6 ≤ cycle_day ∧ cycle_day ≤ 13 <;>
      by_cases h3 : 14 ≤ cycle_day ∧ cycle_day ≤ 16 <;>
        by_cases h4 : 17 ≤ cycle_day ∧ cycle_day ≤ 28 <;>
          simp [phaseForCycleDay, SB_PHASE_PROFILES, PHASE_PROFILES,
            menstrualProfile, follicularProfile, ovulatoryProfile,
            lutealProfile, List.find?, h1, h2, h3, h4, CyclePhase.value]

/-- Membership in the stable insertion step. -/
theorem mem_insertByScoreDesc {x z : ℤ × ℚ} {l : List (ℤ × ℚ)} :
    z ∈ insertByScoreDesc x l ↔ z = x ∨ z ∈ l := by
  induction l with
  | nil => simp [insertByScoreDesc]
  | cons y ys ih =>
    simp only [insertByScoreDesc]
    split_ifs
    · simp
    · simp only [List.mem_cons, ih]
      tauto

/-- Membership in the stable sort. -/
theorem mem_sortByScoreDesc {z : ℤ × ℚ} {l : List (ℤ × ℚ)} :
    z ∈ sortByScoreDesc l ↔ z ∈ l := by
  induction l with
  | nil => simp [sortByScoreDesc]
  | cons x l ih => simp [sortByScoreDesc, mem_insertByScoreDesc, ih]

/-- Inserting an element whose date is strictly smaller than every date in a
list that is already strictly ordered — descending by score, ascending by
date on score ties — keeps the list strictly ordered. -/
theorem pairwise_insertByScoreDesc {x : ℤ × ℚ} {l : List (ℤ × ℚ)}
    (hl : l.Pairwise (fun a b => b.2 < a.2 ∨ (a.2 = b.2 ∧ a.1 < b.1)))
    (hx : ∀ y ∈ l, x.1 < y.1) :
    (insertByScoreDesc x l).Pairwise
      (fun a b => b.2 < a.2 ∨ (a.2 = b.2 ∧ a.1 < b.1)) := by
  induction l with
  | nil => simp [insertByScoreDesc]
  | cons y ys ih =>
    rcases List.pairwise_cons.mp hl with ⟨hy, hys⟩
    simp only [insertByScoreDesc]
    split_ifs with hle
    · refine List.Pairwise.cons ?_ hl
      intro z hz
      have hz2 : z.2 ≤ x.2 := by
        rcases List.mem_cons.mp hz with rfl | hz'
        · exact hle
        · rcases hy z hz' with h | ⟨heq, _⟩
          · exact le_of_lt (h.trans_le hle)
          · exact heq ▸ hle
      rcases lt_or_eq_of_le hz2 with h | h
      · exact Or.inl h
      · exact Or.inr ⟨h.symm, hx z hz⟩
    · refine List.Pairwise.cons ?_ (ih hys (fun z hz =>
        hx z (List.mem_cons_of_mem _ hz)))
      intro z hz
      rcases mem_insertByScoreDesc.mp hz with rfl | hz'
      · exact Or.inl (lt_of_not_le hle)
      · exact hy z hz'

/-- Stable descending sort of a list whose dates are strictly increasing is
strictly ordered: descending by score, and ascending by date on score ties. -/
theorem sortByScoreDesc_pairwise {l : List (ℤ × ℚ)}
    (hl : l.Pairwise (fun a b => a.1 < b.1)) :
    (sortByScoreDesc l).Pairwise
      (fun a b => b.2 < a.2 ∨ (a.2 = b.2 ∧ a.1 < b.1)) := by
  induction l with
  | nil => simp [sortByScoreDesc]
  | cons x l ih =>
    rcases List.pairwise_cons.mp hl with ⟨hx, hl'⟩
    exact pairwise_insertByScoreDesc (ih hl')
      (fun y hy => hx y (mem_sortByScoreDesc.mp hy))

/-- Global lower bound of the scoring formula: the worst case is an
affinity mismatch (base 0.3) in the menstrual phase (energy 3, focus 6)
with no priority boost, giving 0.3*0.5 + 0.3*0.3 + 0.6*0.2 = 0.36 = 9/25. -/
theorem score_ge_bound (task : Task) (target_date : ℤ)
    (cycle_data : CycleData) (hp : 1 ≤ task.priority) :
    9 / 25 ≤ get_optimal_scheduling_score task target_date cycle_data := by
  have hboost : (0 : ℚ) ≤ ((task.priority : ℚ) - 1) * 0.1 := by
    have h1 : (1 : ℚ) ≤ (task.priority : ℚ) := by exact_mod_cast hp
    have : (0 : ℚ) ≤ (task.priority : ℚ) - 1 := by linarith
    nlinarith
  cases hfind : List.find? (fun opt => decide (opt.task_type = task.task_type))
      TASK_OPTIMIZATIONS with
  | none =>
    simp only [get_optimal_scheduling_score, hfind]
    norm_num
  | some opt =>
    simp only [get_optimal_scheduling_score, hfind, pyMin_eq_min]
    refine le_min (by norm_num) ?_
    generalize get_phase_for_date cycle_data target_date = ph
    cases ph <;>
      simp only [PHASE_PROFILES_at, menstrualProfile, follicularProfile,
        ovulatoryProfile, lutealProfile] <;>
      split_ifs <;> push_cast <;> nlinarith [hboost]

/-- A single-day day range. -/
theorem dayRange_self (d : ℤ) : dayRange d d = [d] := by
  have h1 : (d + 1 - d).toNat = 1 := by omega
  simp [dayRange, h1, List.range_succ]

/-- Length of a filterMap whose function never returns `none`. -/
theorem length_filterMap_of_isSome {α β : Type _} (f : α → Option β)
    (l : List α) (h : ∀ a ∈ l, (f a).isSome) :
    (l.filterMap f).length = l.length := by
  induction l with
  | nil => rfl
  | cons a l ih =>
    rw [List.filterMap_cons]
    cases ha : f a with
    | none => exact absurd (h a (List.mem_cons_self _ _)) (by simp [ha])
    | some b =>
      simp [ih (fun x hx => h x (List.mem_cons_of_mem _ hx))]

/-- With no busy intervals, every hourly candidate on a weekday survives:
the slot search imposes no constraint tying the candidate end to the working
window, so the result has one slot per hour in `[sh, eh)` for EVERY
duration, including durations exceeding `(eh - sh) * 60`. -/
theorem find_available_slots_no_busy (day sh eh dur : ℤ)
    (h0 : 0 ≤ sh) (h1 : sh ≤ eh) (h2 : eh ≤ 23) (hw : day % 7 < 5) :
    (find_available_slots (fun s e => []) (combineHour day sh)
        (combineHour day eh) dur (sh, eh)).length = (eh - sh).toNat := by
  simp only [find_available_slots]
  rw [dtDate_combineHour day sh h0 (le_trans h1 h2),
    dtDate_combineHour day eh (le_trans h0 h1) h2, dayRange_self]
  simp only [List.map_cons, List.map_nil, List.flatten_cons, List.flatten_nil,
    List.append_nil]
  rw [if_neg (by omega)]
  rw [length_filterMap_of_isSome _ _ (fun i hi => by
    rw [if_pos (by simp)]
    rfl)]
  exact List.length_range _

/-- When every working hour of a day lies inside some busy interval, no
hourly candidate survives the overlap test, so the slot search over that
single day returns the empty list (for any positive duration). -/
theorem find_available_slots_covered (getAvail : ℤ → ℤ → List BusyInterval)
    (day sh eh dur : ℤ) (h0 : 0 ≤ sh) (h1 : sh ≤ eh) (h2 : eh ≤ 23)
    (hdur : 0 < dur)
    (hcov : ∀ i ∈ List.range (eh - sh).toNat,
      ∃ b ∈ getAvail (combineHour day sh) (combineHour day eh),
        b.start ≤ combineHour day (sh + (i : ℤ)) ∧
          combineHour day (sh + (i : ℤ)) < b.«end») :
    find_available_slots getAvail (combineHour day sh) (combineHour day eh)
      dur (sh, eh) = [] := by
  simp only [find_available_slots]
  rw [dtDate_combineHour day sh h0 (le_trans h1 h2),
    dtDate_combineHour day eh (le_trans h0 h1) h2, dayRange_self]
  simp only [List.map_cons, List.map_nil, List.flatten_cons, List.flatten_nil,
    List.append_nil]
  by_cases hwk : 5 ≤ day % 7
  · rw [if_pos hwk]
  · rw [if_neg hwk, List.filterMap_eq_nil_iff]
    intro i hi
    rcases hcov i hi with ⟨b, hb, hbs, hbe⟩
    rw [if_neg]
    intro hall
    exact (hall b hb) ⟨hbe, by omega⟩

/-- Exhausting the ranked-date loop with an empty slot list on every date
returns `None` and leaves the external calendar untouched. -/
theorem scheduleLoop_none (task : Task) (cycle_data : CycleData)
    (working_hours : ℤ × ℤ) (getAvail : ℤ → ℤ → List BusyInterval)
    (service : Bool) (events : List CalEvent) (l : List (ℤ × ℚ))
    (h : ∀ p ∈ l,
      find_available_slots getAvail (combineHour (dtDate p.1) working_hours.1)
        (combineHour (dtDate p.1) working_hours.2) task.estimated_duration
        working_hours = []) :
    scheduleLoop task cycle_data working_hours getAvail service events l =
      (none, events) := by
  induction l with
  | nil => rfl
  | cons p rest ih =>
    obtain ⟨d, sc⟩ := p
    simp only [scheduleLoop]
    rw [h (d, sc) (List.mem_cons_self _ _)]
    exact ih (fun q hq => h q (List.mem_cons_of_mem _ hq))

/-- Concrete creative task used as a test fixture: priority 1, one hour. -/
def wTask : Task where
  title := "write blog post"
  task_type := .creative
  estimated_duration := 60
  priority := 1

/-- Concrete cycle data anchored at the epoch (a Monday), default 28-day
cycle. -/
def wCycle : CycleData where
  user_id := "u1"
  last_period_start := 0
  cycle_length := 28
  period_length := 5

/-- Concrete cycle data with the maximal valid cycle length 35. -/
def wCycle35 : CycleData where
  user_id := "u2"
  last_period_start := 0
  cycle_length := 35
  period_length := 5

/-- Claim C1, counterexample: cycle_length = 35 is a valid configuration
(21 ≤ 35 ≤ 35) and cycle day 29 lies in 1..35, yet NO profile of
PHASE_PROFILES contains day 29 (the static table covers only 1..28): the
lookup fails, the luteal fallback branch fires, and day 29 actually occurs
(a target 28 days after the anchor).  This refutes the partition claim for
cycle lengths above 28. -/
theorem phaseProfiles_gap_at_day29 :
    (21 ≤ (35 : ℤ) ∧ (35 : ℤ) ≤ 35 ∧ 1 ≤ (29 : ℤ) ∧ (29 : ℤ) ≤ 35) ∧
    (PHASE_PROFILES.filter (fun pp =>
      decide (pp.2.day_range.1 ≤ (29 : ℤ) ∧ (29 : ℤ) ≤ pp.2.day_range.2))).length
      = 0 ∧
    PHASE_PROFILES.find? (fun pp =>
      decide (pp.2.day_range.1 ≤ (29 : ℤ) ∧ (29 : ℤ) ≤ pp.2.day_range.2))
      = none ∧
    phaseForCycleDay 29 = CyclePhase.luteal ∧
    get_cycle_day_for_date wCycle35 (28 * 1440) = 29 := by
  decide

/-- Claim C1 (amended): for cycle lengths 21..28 the four profiles of
HormonalCycleManager.PHASE_PROFILES partition the cycle-day space: every
integer cycle day in 1..cycle_length is contained in the day_range of
exactly one profile, so the luteal fallback of get_phase_for_date is
unreachable there.  For cycle lengths 29..35 days 29..cycle_length are in
no day_range and the fallback is reachable (see the counterexample). -/
theorem phaseProfiles_partition_up_to_28 (L d : ℤ) (hL1 : 21 ≤ L)
    (hL2 : L ≤ 28) (hd1 : 1 ≤ d) (hd2 : d ≤ L) :
    (PHASE_PROFILES.filter (fun pp =>
      decide (pp.2.day_range.1 ≤ d ∧ d ≤ pp.2.day_range.2))).length = 1 := by
  have h28 : d ≤ 28 := le_trans hd2 hL2
  interval_cases d <;> decide

/-- Claim C1, witness instantiating the amended partition theorem at
cycle length 28, day 17. -/
theorem phaseProfiles_partition_up_to_28_witness :
    (21 ≤ (28 : ℤ) ∧ (28 : ℤ) ≤ 28 ∧ 1 ≤ (17 : ℤ) ∧ (17 : ℤ) ≤ 28) ∧
    (PHASE_PROFILES.filter (fun pp =>
      decide (pp.2.day_range.1 ≤ (17 : ℤ) ∧ (17 : ℤ) ≤ pp.2.day_range.2))).length
      = 1 :=
  ⟨by decide, phaseProfiles_partition_up_to_28 28 17 (by decide) (by decide)
    (by decide) (by decide)⟩

/-- Claim C3, counterexample: on a Monday with NO busy intervals,
working hours (9, 17) and duration 481 > (17-9)*60 = 480 minutes,
find_available_slots returns a non-empty list (one slot per working hour,
each extending past the window) — not the empty sequence the claim
requires. -/
theorem find_available_slots_overlong_duration_cex :
    ((17 - 9) * 60 < (481 : ℤ)) ∧
    find_available_slots (fun _ _ => []) (combineHour 0 9) (combineHour 0 17)
      481 (9, 17) ≠ [] := by
  refine ⟨by decide, by decide⟩

/-- Claim C3 (amended): find_available_slots never compares the candidate
end against the end of the working window, so a duration exceeding
(end_hour - start_hour)*60 does NOT force an empty result: on a weekday
with no busy intervals it still returns one slot per whole working hour.
The result is empty only when busy intervals kill every hourly candidate
(or the range is all weekend). -/
theorem find_available_slots_overlong_duration (day sh eh dur : ℤ)
    (h0 : 0 ≤ sh) (h1 : sh ≤ eh) (h2 : eh ≤ 23) (hw : day % 7 < 5)
    (hdur : (eh - sh) * 60 < dur) :
    (find_available_slots (fun _ _ => []) (combineHour day sh)
      (combineHour day eh) dur (sh, eh)).length = (eh - sh).toNat :=
  find_available_slots_no_busy day sh eh dur h0 h1 h2 hw

/-- Claim C3, witness: Monday (epoch day 0), hours (9, 17), duration 481
minutes — eight hourly slots are returned although 481 exceeds the 480
minutes of the window. -/
theorem find_available_slots_overlong_duration_witness :
    (0 ≤ (9 : ℤ) ∧ (9 : ℤ) ≤ 17 ∧ (17 : ℤ) ≤ 23 ∧ (0 : ℤ) % 7 < 5 ∧
      ((17 : ℤ) - 9) * 60 < 481) ∧
    (find_available_slots (fun _ _ => []) (combineHour 0 9) (combineHour 0 17)
      481 (9, 17)).length = ((17 : ℤ) - 9).toNat :=
  ⟨by decide, find_available_slots_overlong_duration 0 9 17 481 (by decide)
    (by decide) (by decide) (by decide) (by decide)⟩

/-- Claim C4 (confirmed): whenever the task's category has an affinity
entry (which every TaskType does), get_optimal_scheduling_score returns
exactly min(1, base*0.5 + (energy/10)*0.3 + (focus/10)*0.2 +
(priority - 1)*0.1) with base = 0.8 on a phase match and 0.3 otherwise;
the 0.5 neutral branch is taken only when the lookup fails. -/
theorem get_optimal_scheduling_score_formula (task : Task) (target_date : ℤ)
    (cycle_data : CycleData) (task_opt : TaskOptimization)
    (hfind : TASK_OPTIMIZATIONS.find? (fun opt =>
      decide (opt.task_type = task.task_type)) = some task_opt) :
    get_optimal_scheduling_score task target_date cycle_data =
      min 1
        ((if get_phase_for_date cycle_data target_date ∈ task_opt.optimal_phases
            then (0.8 : ℚ) else 0.3) * 0.5 +
          ((PHASE_PROFILES_at
            (get_phase_for_date cycle_data target_date)).energy_level : ℚ) / 10
            * 0.3 +
          ((PHASE_PROFILES_at
            (get_phase_for_date cycle_data target_date)).focus_level : ℚ) / 10
            * 0.2 +
          ((task.priority : ℚ) - 1) * 0.1) := by
  simp only [get_optimal_scheduling_score, hfind, pyMin_eq_min]

/-- Claim C4, witness: the creative fixture task on the anchor date (a
menstrual day, not an optimal phase for creative work) scores
min(1, 0.3*0.5 + 0.3*0.3 + 0.6*0.2 + 0) = 0.36. -/
theorem get_optimal_scheduling_score_formula_witness :
    (TASK_OPTIMIZATIONS.find? (fun opt =>
      decide (opt.task_type = wTask.task_type)) = some
        { task_type := .creative, optimal_phases := [.follicular, .ovulatory],
          energy_level := 8, focus_level := 7,
          description := "Creative work, brainstorming, design, writing" }) ∧
    get_optimal_scheduling_score wTask 0 wCycle =
      min 1
        ((if get_phase_for_date wCycle 0 ∈
            [CyclePhase.follicular, CyclePhase.ovulatory]
            then (0.8 : ℚ) else 0.3) * 0.5 +
          ((PHASE_PROFILES_at (get_phase_for_date wCycle 0)).energy_level : ℚ)
            / 10 * 0.3 +
          ((PHASE_PROFILES_at (get_phase_for_date wCycle 0)).focus_level : ℚ)
            / 10 * 0.2 +
          ((wTask.priority : ℚ) - 1) * 0.1) :=
  ⟨by decide, get_optimal_scheduling_score_formula wTask 0 wCycle
    { task_type := .creative, optimal_phases := [.follicular, .ovulatory],
      energy_level := 8, focus_level := 7,
      description := "Creative work, brainstorming, design, writing" }
    (by decide)⟩

/-- Claim C9 (confirmed): shifting any target date forward by exactly
cycle_length days yields the same cycle day and the same phase, for targets
before or after the anchor alike (periodicity of phase resolution). -/
theorem get_phase_for_date_periodicity (cycle_data : CycleData)
    (target_date : ℤ) (hL : 0 < cycle_data.cycle_length) :
    get_cycle_day_for_date cycle_data
        (target_date + cycle_data.cycle_length * 1440) =
      get_cycle_day_for_date cycle_data target_date ∧
    get_phase_for_date cycle_data
        (target_date + cycle_data.cycle_length * 1440) =
      get_phase_for_date cycle_data target_date := by
  have hday : get_cycle_day_for_date cycle_data
      (target_date + cycle_data.cycle_length * 1440) =
      get_cycle_day_for_date cycle_data target_date := by
    rw [get_cycle_day_eq_emod, get_cycle_day_eq_emod, dtDate_add_days]
    congr 1
    have h : dtDate target_date + cycle_data.cycle_length -
        dtDate cycle_data.last_period_start =
        dtDate target_date - dtDate cycle_data.last_period_start +
          cycle_data.cycle_length := by ring
    rw [h, Int.add_emod_self]
  exact ⟨hday, by simp only [get_phase_for_date, hday]⟩

/-- Claim C9, witness: one day BEFORE the anchor (cycle day 28 via the
negative-delta branch) and 27 days after it resolve identically. -/
theorem get_phase_for_date_periodicity_witness :
    (0 < wCycle.cycle_length) ∧
    (get_cycle_day_for_date wCycle (-1440 + wCycle.cycle_length * 1440) =
      get_cycle_day_for_date wCycle (-1440) ∧
    get_phase_for_date wCycle (-1440 + wCycle.cycle_length * 1440) =
      get_phase_for_date wCycle (-1440)) :=
  ⟨by decide, get_phase_for_date_periodicity wCycle (-1440) (by decide)⟩

/-- Claim C10 (confirmed): the explicit negative-delta adjustment of
get_phase_for_date computes exactly the floor-modulus formula
(days_since_period mod cycle_length) + 1 used by
HormonalCycleManager.get_current_phase, and the string-keyed resolver of
simple_backend.py agrees with both — the three implementations coincide on
every input when given the same reference day. -/
theorem phase_resolvers_agree (cycle_data : CycleData) (now : ℤ)
    (hL : 0 < cycle_data.cycle_length) :
    get_cycle_day_for_date cycle_data now =
      (dtDate now - dtDate cycle_data.last_period_start) %
        cycle_data.cycle_length + 1 ∧
    get_phase_for_date cycle_data now = get_current_phase cycle_data now ∧
    sb_get_current_phase cycle_data now =
      (get_current_phase cycle_data now).value := by
  refine ⟨get_cycle_day_eq_emod cycle_data now, ?_, ?_⟩
  · simp only [get_phase_for_date, get_current_phase, get_cycle_day_eq_emod]
  · simp only [sb_get_current_phase, get_current_phase]
    exact sb_lookup_agrees _

/-- Claim C10, witness: the three resolvers agree ten days after the
anchor (a follicular day). -/
theorem phase_resolvers_agree_witness :
    (0 < wCycle.cycle_length) ∧
    (get_cycle_day_for_date wCycle 14400 =
      (dtDate 14400 - dtDate wCycle.last_period_start) % wCycle.cycle_length
        + 1 ∧
    get_phase_for_date wCycle 14400 = get_current_phase wCycle 14400 ∧
    sb_get_current_phase wCycle 14400 =
      (get_current_phase wCycle 14400).value) :=
  ⟨by decide, phase_resolvers_agree wCycle 14400 (by decide)⟩

/-- Effect behaviour of the ranked-date loop: the external calendar is left
untouched when no slot is found or when the Google service is not
initialised, and exactly one event — for the returned slot — is appended
when a result is returned with the service available. -/
theorem scheduleLoop_effects (task : Task) (cycle_data : CycleData)
    (working_hours : ℤ × ℤ) (getAvail : ℤ → ℤ → List BusyInterval)
    (service : Bool) (events : List CalEvent) (l : List (ℤ × ℚ)) :
    ((scheduleLoop task cycle_data working_hours getAvail service events l).1
        = none →
      (scheduleLoop task cycle_data working_hours getAvail service events l).2
        = events) ∧
    (service = false →
      (scheduleLoop task cycle_data working_hours getAvail service events l).2
        = events) ∧
    (∀ r, (scheduleLoop task cycle_data working_hours getAvail service events
        l).1 = some r → service = true →
      (scheduleLoop task cycle_data working_hours getAvail service events l).2
        = events ++
          [buildCalendarEvent task r.scheduled_time task.estimated_duration]) := by
  induction l with
  | nil => exact ⟨fun _ => rfl, fun _ => rfl, fun r hr => by
      simp [scheduleLoop] at hr⟩
  | cons p rest ih =>
    obtain ⟨d, sc⟩ := p
    simp only [scheduleLoop]
    cases hslots : find_available_slots getAvail
        (combineHour (dtDate d) working_hours.1)
        (combineHour (dtDate d) working_hours.2) task.estimated_duration
        working_hours with
    | nil => exact ih
    | cons best tl =>
      refine ⟨fun h => by simp at h, fun hserv => ?_, fun r hr htrue => ?_⟩
      · subst hserv
        simp [create_calendar_event]
      · subst htrue
        have hrr := Option.some.inj hr
        subst hrr
        simp [create_calendar_event]

/-- Claim C2 (amended): schedule_task_optimally is NOT side-effect free: it
never touches the task itself, and it leaves the calendar unchanged when it
returns None or when the Google service is unavailable, but when it returns
a proposed slot with the service initialised it has already created exactly
one calendar event for that slot (calendar_service.py line 227) — event
creation is not left to the caller. -/
theorem schedule_task_optimally_event_effects (task : Task)
    (cycle_data : CycleData) (days_ahead : ℕ) (working_hours : ℤ × ℤ)
    (getAvail : ℤ → ℤ → List BusyInterval) (service : Bool)
    (events : List CalEvent) (now : ℤ) :
    ((schedule_task_optimally task cycle_data days_ahead working_hours getAvail
        service events now).1 = none →
      (schedule_task_optimally task cycle_data days_ahead working_hours getAvail
        service events now).2 = events) ∧
    (service = false →
      (schedule_task_optimally task cycle_data days_ahead working_hours getAvail
        service events now).2 = events) ∧
    (∀ r, (schedule_task_optimally task cycle_data days_ahead working_hours
        getAvail service events now).1 = some r → service = true →
      (schedule_task_optimally task cycle_data days_ahead working_hours getAvail
        service events now).2 = events ++
          [buildCalendarEvent task r.scheduled_time task.estimated_duration]) :=
  scheduleLoop_effects task cycle_data working_hours getAvail service events
    (get_next_optimal_dates task cycle_data days_ahead now)

/-- Result returned by the orchestrator on the witness input with the
Google service initialised: first free slot 9:00 of the anchor Monday. -/
def wResult : ScheduleResult where
  scheduled_time := 540
  end_time := 600
  cycle_score := 9 / 25
  hormonal_phase := "menstrual"
  calendar_event_id := some "gcal-event-id"
  reasoning :=
    "Scheduled during menstrual phase for optimal creative performance"

/-- Claim C2, counterexample: with the Google service initialised, an empty
calendar and the creative fixture task, schedule_task_optimally both returns
a slot AND has appended a calendar event to the external calendar — a side
effect the claim says never happens. -/
theorem schedule_task_optimally_side_effect_cex :
    (schedule_task_optimally wTask wCycle 1 (9, 17) (fun _ _ => []) true []
      0).1 = some wResult ∧
    (schedule_task_optimally wTask wCycle 1 (9, 17) (fun _ _ => []) true []
      0).2 ≠ [] := by
  refine ⟨by with_unfolding_all decide, by with_unfolding_all decide⟩

/-- Claim C2, witness: the effects theorem applied on the same concrete run
— the event appended is exactly the one built for the returned slot. -/
theorem schedule_task_optimally_event_effects_witness :
    (schedule_task_optimally wTask wCycle 1 (9, 17) (fun _ _ => []) true []
      0).1 = some wResult ∧
    (schedule_task_optimally wTask wCycle 1 (9, 17) (fun _ _ => []) true []
      0).2 = [] ++
        [buildCalendarEvent wTask wResult.scheduled_time
          wTask.estimated_duration] :=
  ⟨by with_unfolding_all decide,
    (schedule_task_optimally_event_effects wTask wCycle 1 (9, 17)
      (fun _ _ => []) true [] 0).2.2 wResult (by with_unfolding_all decide)
      rfl⟩

/-- Claim C5, counterexample: the creative priority-1 fixture task,
scheduled by the orchestrator on a menstrual day (the only day in a 1-day
horizon), re-scores at its returned scheduled time to 0.36 < 0.5 — below
the neutral baseline, although its category has a defined affinity. -/
theorem schedule_rescore_below_half_cex :
    ((schedule_task_optimally wTask wCycle 1 (9, 17) (fun _ _ => []) false []
      0).1.map (fun r =>
        get_optimal_scheduling_score wTask r.scheduled_time wCycle)) =
      some (9 / 25) ∧
    (9 / 25 : ℚ) < 0.5 := by
  refine ⟨by with_unfolding_all decide, by norm_num⟩

/-- Claim C5 (amended): a task scheduled via the orchestrator, re-scored at
its returned scheduled time, yields a score ≥ 0.36 — the true global
minimum of the scoring formula for priority ≥ 1 (affinity mismatch in the
menstrual phase, no boost) — rather than the claimed 0.5 neutral
baseline, which the score can undershoot. -/
theorem schedule_rescore_ge_bound (task : Task) (cycle_data : CycleData)
    (days_ahead : ℕ) (working_hours : ℤ × ℤ)
    (getAvail : ℤ → ℤ → List BusyInterval) (service : Bool)
    (events : List CalEvent) (now : ℤ) (r : ScheduleResult)
    (hp : 1 ≤ task.priority)
    (hr : (schedule_task_optimally task cycle_data days_ahead working_hours
      getAvail service events now).1 = some r) :
    9 / 25 ≤ get_optimal_scheduling_score task r.scheduled_time cycle_data :=
  score_ge_bound task r.scheduled_time cycle_data hp

/-- Result returned by the orchestrator on the witness input with the
Google service unavailable (no event id). -/
def wResultNoService : ScheduleResult where
  scheduled_time := 540
  end_time := 600
  cycle_score := 9 / 25
  hormonal_phase := "menstrual"
  calendar_event_id := none
  reasoning :=
    "Scheduled during menstrual phase for optimal creative performance"

/-- Claim C5, witness: the amended bound holds with equality on the
counterexample run. -/
theorem schedule_rescore_ge_bound_witness :
    (1 ≤ wTask.priority ∧
      (schedule_task_optimally wTask wCycle 1 (9, 17) (fun _ _ => []) false []
        0).1 = some wResultNoService) ∧
    9 / 25 ≤ get_optimal_scheduling_score wTask wResultNoService.scheduled_time
      wCycle :=
  ⟨⟨by decide, by with_unfolding_all decide⟩,
    schedule_rescore_ge_bound wTask wCycle 1 (9, 17) (fun _ _ => []) false []
      0 wResultNoService (by decide) (by with_unfolding_all decide)⟩

/-- Claim C6, counterexample: get_next_optimal_dates takes no injected
"now" in the source — it reads the wall clock (datetime.now(), line 297).
Two invocations with IDENTICAL explicit arguments but different ambient
clocks return different results, refuting independence from hidden global
state. -/
theorem rank_called_clock_dependence_cex :
    rank_called ⟨0⟩ wTask wCycle 1 ≠ rank_called ⟨1440⟩ wTask wCycle 1 := by
  with_unfolding_all decide

/-- Claim C6 (amended): get_optimal_scheduling_score and
find_available_slots are deterministic functions of their explicit inputs
alone — invariant under the ambient wall clock — while
get_next_optimal_dates additionally depends on the ambient clock and is
deterministic only once that clock value is fixed. -/
theorem engine_determinism_in_env (env1 env2 : CallEnv) (task : Task)
    (target_date : ℤ) (cycle_data : CycleData)
    (getAvail : ℤ → ℤ → List BusyInterval) (start_date end_date duration : ℤ)
    (working_hours : ℤ × ℤ) (days_ahead : ℕ) :
    score_called env1 task target_date cycle_data =
      score_called env2 task target_date cycle_data ∧
    slots_called env1 getAvail start_date end_date duration working_hours =
      slots_called env2 getAvail start_date end_date duration working_hours ∧
    (env1.now = env2.now →
      rank_called env1 task cycle_data days_ahead =
        rank_called env2 task cycle_data days_ahead) :=
  ⟨rfl, rfl, fun h => by simp only [rank_called, h]⟩

/-- Claim C6, witness: score and slot search agree across two different
clock environments; ranking agrees once the clocks coincide. -/
theorem engine_determinism_in_env_witness :
    score_called ⟨0⟩ wTask 0 wCycle = score_called ⟨1440⟩ wTask 0 wCycle ∧
    slots_called ⟨0⟩ (fun _ _ => []) 540 1020 60 (9, 17) =
      slots_called ⟨1440⟩ (fun _ _ => []) 540 1020 60 (9, 17) ∧
    rank_called ⟨0⟩ wTask wCycle 1 = rank_called ⟨0⟩ wTask wCycle 1 :=
  ⟨(engine_determinism_in_env ⟨0⟩ ⟨1440⟩ wTask 0 wCycle (fun _ _ => []) 540
      1020 60 (9, 17) 1).1,
   (engine_determinism_in_env ⟨0⟩ ⟨1440⟩ wTask 0 wCycle (fun _ _ => []) 540
      1020 60 (9, 17) 1).2.1,
   (engine_determinism_in_env ⟨0⟩ ⟨0⟩ wTask 0 wCycle (fun _ _ => []) 540
      1020 60 (9, 17) 1).2.2 rfl⟩

/-- Claim C7 (confirmed): get_next_optimal_dates returns its dates in
non-increasing score order, and among equal scores the chronologically
earlier date strictly precedes the later one — the stable descending sort
over dates enumerated in ascending order from "today". -/
theorem get_next_optimal_dates_sorted_stable (task : Task)
    (cycle_data : CycleData) (days_ahead : ℕ) (now : ℤ) :
    (get_next_optimal_dates task cycle_data days_ahead now).Pairwise
      (fun a b => b.2 ≤ a.2 ∧ (a.2 = b.2 → a.1 < b.1)) := by
  have hmap : ((List.range days_ahead).map (fun (i : ℕ) =>
      (now + (i : ℤ) * 1440,
        get_optimal_scheduling_score task (now + (i : ℤ) * 1440)
          cycle_data))).Pairwise (fun a b => a.1 < b.1) := by
    refine (List.pairwise_lt_range days_ahead).map _ ?_
    intro a b h
    dsimp only
    omega
  have hs := sortByScoreDesc_pairwise hmap
  have ht := List.Pairwise.sublist (List.take_sublist 10 _) hs
  refine List.Pairwise.imp ?_ ht
  intro a b h
  rcases h with h | ⟨heq, hlt⟩
  · exact ⟨le_of_lt h, fun he => absurd (he ▸ h) (lt_irrefl _)⟩
  · exact ⟨le_of_eq heq.symm, fun _ => hlt⟩

/-- Claim C8 (confirmed): when every working hour of every ranked candidate
day lies inside some busy interval, no candidate slot survives the overlap
test on any ranked day, and schedule_task_optimally returns None — the
explicit NotFound result of the total function, not an exception. -/
theorem schedule_none_when_all_hours_busy (task : Task)
    (cycle_data : CycleData) (days_ahead : ℕ) (working_hours : ℤ × ℤ)
    (getAvail : ℤ → ℤ → List BusyInterval) (service : Bool)
    (events : List CalEvent) (now : ℤ)
    (hdur : 0 < task.estimated_duration)
    (h0 : 0 ≤ working_hours.1) (h1 : working_hours.1 ≤ working_hours.2)
    (h2 : working_hours.2 ≤ 23)
    (hcov : ∀ p ∈ get_next_optimal_dates task cycle_data days_ahead now,
      ∀ i ∈ List.range (working_hours.2 - working_hours.1).toNat,
        ∃ b ∈ getAvail (combineHour (dtDate p.1) working_hours.1)
            (combineHour (dtDate p.1) working_hours.2),
          b.start ≤ combineHour (dtDate p.1) (working_hours.1 + (i : ℤ)) ∧
            combineHour (dtDate p.1) (working_hours.1 + (i : ℤ)) < b.«end») :
    (schedule_task_optimally task cycle_data days_ahead working_hours getAvail
      service events now).1 = none := by
  have hloop := scheduleLoop_none task cycle_data working_hours getAvail
    service events (get_next_optimal_dates task cycle_data days_ahead now)
    (fun p hp => find_available_slots_covered getAvail (dtDate p.1)
      working_hours.1 working_hours.2 task.estimated_duration h0 h1 h2 hdur
      (hcov p hp))
  simp only [schedule_task_optimally, hloop]

/-- Claim C8, witness: two candidate days, each fully busy from 9:00 to
17:00; the orchestrator returns None. -/
theorem schedule_none_when_all_hours_busy_witness :
    (0 < wTask.estimated_duration ∧
      (∀ p ∈ get_next_optimal_dates wTask wCycle 2 0,
        ∀ i ∈ List.range ((17 : ℤ) - 9).toNat,
          ∃ b ∈ (fun s e => [BusyInterval.mk s e]) (combineHour (dtDate p.1) 9)
              (combineHour (dtDate p.1) 17),
            b.start ≤ combineHour (dtDate p.1) (9 + (i : ℤ)) ∧
              combineHour (dtDate p.1) (9 + (i : ℤ)) < b.«end»)) ∧
    (schedule_task_optimally wTask wCycle 2 (9, 17)
      (fun s e => [BusyInterval.mk s e]) true [] 0).1 = none :=
  ⟨⟨by decide, by with_unfolding_all decide⟩,
    schedule_none_when_all_hours_busy wTask wCycle 2 (9, 17)
      (fun s e => [BusyInterval.mk s e]) true [] 0 (by decide) (by decide)
      (by decide) (by decide) (by with_unfolding_all decide)⟩

end SyncTrack
